import Mathlib

/-!
Verification of the OpenThread key-management subsystem
(`key_manager.cpp` / `SecurityPolicy` codec) against its specification.

Shallow embedding conventions:
* machine integers are `Nat` with explicit `% 2^32` (resp. `% 256`, `% 128`)
  wherever the C++ performs wrapping arithmetic on `uint32_t` / `uint8_t`;
* byte buffers are `List Nat` whose elements are bytes;
* the HMAC-SHA256 primitive is consumed by the code through the platform
  crypto interface (`otPlatCryptoHmacSha256*`), whose implementation is an
  external collaborator; it is therefore a parameter
  `hmac : List Nat → List Nat → List Nat` (key, message ↦ 32-byte digest);
* the change `Notifier` is embedded as a "has the event been signalled"
  flag per event together with the list of events emitted by one call.
-/

namespace OT

/-- Modelled from the spec: Security Policy TLV byte-0 flag bit, header not
in scope.  Byte 0 holds 8 single-bit feature toggles in the Thread TLV order
(obtain-network-key in the most significant bit). -/
def kObtainNetworkKeyMask : Nat := 0x80

/-- Modelled from the spec: byte-0 native-commissioning flag bit. -/
def kNativeCommissioningMask : Nat := 0x40

/-- Modelled from the spec: byte-0 routers flag bit. -/
def kRoutersMask : Nat := 0x20

/-- Modelled from the spec: byte-0 external-commissioning flag bit. -/
def kExternalCommissioningMask : Nat := 0x10

/-- Modelled from the spec: byte-0 beacons flag bit. -/
def kBeaconsMask : Nat := 0x08

/-- Modelled from the spec: byte-0 commercial-commissioning bit (inverted:
bit set means disabled). -/
def kCommercialCommissioningMask : Nat := 0x04

/-- Modelled from the spec: byte-0 autonomous-enrollment bit (inverted). -/
def kAutonomousEnrollmentMask : Nat := 0x02

/-- Modelled from the spec: byte-0 network-key-provisioning bit (inverted). -/
def kNetworkKeyProvisioningMask : Nat := 0x01

/-- Modelled from the spec: byte-1 ToBLE-link-enable bit. -/
def kTobleLinkMask : Nat := 0x80

/-- Modelled from the spec: byte-1 non-CCM-routers bit (inverted). -/
def kNonCcmRoutersMask : Nat := 0x40

/-- Modelled from the spec: byte-1 reserved bits, always written as 1. -/
def kReservedMask : Nat := 0x30

/-- Modelled from the spec: byte-1 low-nibble routing version threshold. -/
def kVersionThresholdForRoutingMask : Nat := 0x0F

/-- Modelled from the spec: the defined minimum key rotation time (hours)
checked by `KeyManager::SetSecurityPolicy`; header not in scope. -/
def kMinKeyRotationTime : Nat := 1

/-- The `SecurityPolicy` record: rotation time in hours plus the feature
bitflags (fields as in the C++ struct; `mVersionThresholdForRouting` is the
low-nibble routing version threshold). -/
structure SecurityPolicy where
  mRotationTime : Nat
  mObtainNetworkKeyEnabled : Bool
  mNativeCommissioningEnabled : Bool
  mRoutersEnabled : Bool
  mExternalCommissioningEnabled : Bool
  mBeaconsEnabled : Bool
  mCommercialCommissioningEnabled : Bool
  mAutonomousEnrollmentEnabled : Bool
  mNetworkKeyProvisioningEnabled : Bool
  mTobleLinkEnabled : Bool
  mNonCcmRoutersEnabled : Bool
  mVersionThresholdForRouting : Nat
  deriving DecidableEq, Repr

/-- `SecurityPolicy::SetToDefaultFlags`. -/
def SecurityPolicy.setToDefaultFlags (p : SecurityPolicy) : SecurityPolicy :=
  { p with
    mObtainNetworkKeyEnabled := true
    mNativeCommissioningEnabled := true
    mRoutersEnabled := true
    mExternalCommissioningEnabled := true
    mBeaconsEnabled := true
    mCommercialCommissioningEnabled := false
    mAutonomousEnrollmentEnabled := false
    mNetworkKeyProvisioningEnabled := false
    mTobleLinkEnabled := true
    mNonCcmRoutersEnabled := false
    mVersionThresholdForRouting := 0 }

/-- `SecurityPolicy::SetFlags(aFlags, aFlagsLength)`: the flags buffer is the
list `flags` (its length is `aFlagsLength`).  An empty buffer trips
`OT_ASSERT(aFlagsLength > 0)`, so no update happens.  Otherwise the flag
fields are first reset to defaults, byte 0 is decoded, and byte 1 is decoded
only when the buffer has more than one byte (`VerifyOrExit`). -/
def SecurityPolicy.setFlags (p : SecurityPolicy) (flags : List Nat) : SecurityPolicy :=
  match flags with
  | [] => p
  | b0 :: rest =>
    let q := p.setToDefaultFlags
    let q := { q with
      mObtainNetworkKeyEnabled := (b0 &&& kObtainNetworkKeyMask) != 0
      mNativeCommissioningEnabled := (b0 &&& kNativeCommissioningMask) != 0
      mRoutersEnabled := (b0 &&& kRoutersMask) != 0
      mExternalCommissioningEnabled := (b0 &&& kExternalCommissioningMask) != 0
      mBeaconsEnabled := (b0 &&& kBeaconsMask) != 0
      mCommercialCommissioningEnabled := (b0 &&& kCommercialCommissioningMask) == 0
      mAutonomousEnrollmentEnabled := (b0 &&& kAutonomousEnrollmentMask) == 0
      mNetworkKeyProvisioningEnabled := (b0 &&& kNetworkKeyProvisioningMask) == 0 }
    match rest with
    | [] => q
    | b1 :: _ => { q with
      mTobleLinkEnabled := (b1 &&& kTobleLinkMask) != 0
      mNonCcmRoutersEnabled := (b1 &&& kNonCcmRoutersMask) == 0
      mVersionThresholdForRouting := b1 &&& kVersionThresholdForRoutingMask }

/-- Byte 0 of the `GetFlags` encoding: each enabled (resp., for the inverted
flags, disabled) feature contributes its mask bit. -/
def SecurityPolicy.byte0 (p : SecurityPolicy) : Nat :=
  (cond p.mObtainNetworkKeyEnabled kObtainNetworkKeyMask 0) |||
  (cond p.mNativeCommissioningEnabled kNativeCommissioningMask 0) |||
  (cond p.mRoutersEnabled kRoutersMask 0) |||
  (cond p.mExternalCommissioningEnabled kExternalCommissioningMask 0) |||
  (cond p.mBeaconsEnabled kBeaconsMask 0) |||
  (cond p.mCommercialCommissioningEnabled 0 kCommercialCommissioningMask) |||
  (cond p.mAutonomousEnrollmentEnabled 0 kAutonomousEnrollmentMask) |||
  (cond p.mNetworkKeyProvisioningEnabled 0 kNetworkKeyProvisioningMask)

/-- Byte 1 of the `GetFlags` encoding: ToBLE bit, inverted non-CCM bit, the
reserved bits (always 1) and the version threshold nibble; the `|=` into a
`uint8_t` truncates to a byte. -/
def SecurityPolicy.byte1 (p : SecurityPolicy) : Nat :=
  ((cond p.mTobleLinkEnabled kTobleLinkMask 0) |||
   (cond p.mNonCcmRoutersEnabled 0 kNonCcmRoutersMask) |||
   kReservedMask |||
   p.mVersionThresholdForRouting) % 256

/-- `SecurityPolicy::GetFlags(aFlags, aFlagsLength)`: the caller buffer is
zeroed, byte 0 always written, byte 1 written only when the buffer has more
than one byte; remaining bytes stay zero.  An empty buffer trips
`OT_ASSERT(aFlagsLength > 0)`. -/
def SecurityPolicy.getFlags (p : SecurityPolicy) (len : Nat) : List Nat :=
  match len with
  | 0 => []
  | 1 => [p.byte0]
  | n + 2 => p.byte0 :: p.byte1 :: List.replicate n 0

/-! ## Key derivation (`KeyManager::ComputeKeys`) -/

/-- `KeyManager::kThreadString`: the 6-byte ASCII string "Thread". -/
def kThreadString : List Nat := [0x54, 0x68, 0x72, 0x65, 0x61, 0x64]

/-- Modelled from the spec: `Encoding::BigEndian::WriteUint32` (the encoding
helper is not in scope) — big-endian serialization of a 32-bit value. -/
def bigEndian32 (v : Nat) : List Nat :=
  [v / 2 ^ 24 % 256, v / 2 ^ 16 % 256, v / 2 ^ 8 % 256, v % 256]

/-- The streaming wrapper context of `Crypto::HmacSha256`: `Start` records
the key material, each `Update` appends bytes to the message stream, and
`Finish` hands the key and the accumulated stream to the platform HMAC
primitive (an abstract parameter, since the primitive is an external
collaborator behind `otPlatCryptoHmacSha256*`). -/
structure HmacSha256Ctx where
  key : List Nat
  msg : List Nat
  deriving DecidableEq, Repr

/-- `HmacSha256::Start(aKey)`. -/
def hmacSha256Start (key : List Nat) : HmacSha256Ctx := ⟨key, []⟩

/-- `HmacSha256::Update(aBuf, aBufLength)`. -/
def HmacSha256Ctx.update (c : HmacSha256Ctx) (buf : List Nat) : HmacSha256Ctx :=
  ⟨c.key, c.msg ++ buf⟩

/-- `HmacSha256::Finish(aHash)`: apply the platform primitive `hmac`. -/
def HmacSha256Ctx.finish (c : HmacSha256Ctx) (hmac : List Nat → List Nat → List Nat) :
    List Nat :=
  hmac c.key c.msg

/-- `KeyManager::HashKeys`: the 32-byte HMAC digest, overlaid by a union as
{MLE key, MAC key}; per the spec the MLE key is the first 16 bytes and the
MAC key the last 16 bytes (the union declaration is not in scope). -/
structure HashKeys where
  mHash : List Nat
  deriving DecidableEq, Repr

/-- First half of the digest: the MLE key. -/
def HashKeys.mleKey (h : HashKeys) : List Nat := h.mHash.take 16

/-- Second half of the digest: the MAC key. -/
def HashKeys.macKey (h : HashKeys) : List Nat := h.mHash.drop 16

/-- `KeyManager::ComputeKeys(aKeySequence, aHashKeys)` with the literal-key
backend: HMAC-SHA256 keyed by the network key, fed the big-endian sequence
bytes and then the "Thread" string. -/
def computeKeys (hmac : List Nat → List Nat → List Nat) (networkKey : List Nat)
    (aKeySequence : Nat) : HashKeys :=
  let c := hmacSha256Start networkKey
  let c := c.update (bigEndian32 aKeySequence)
  let c := c.update kThreadString
  ⟨c.finish hmac⟩

/-! ## Key Manager state machine

Embedded configuration: literal-key backend
(`OPENTHREAD_CONFIG_PLATFORM_KEY_REFERENCES_ENABLE` off), IEEE 802.15.4 radio
link enabled, TREL disabled, FTD. -/

/-- The change-notifier events touched by the embedded operations. -/
inductive Event where
  | threadKeySeqCounterChanged
  | networkKeyChanged
  | securityPolicyChanged
  deriving DecidableEq, Repr

/-- Modelled from the spec: `Mac::Frame::kKeyIdMode1` selector (header not in
scope); its numeric value plays no role in the claims. -/
def kKeyIdMode1 : Nat := 8

/-- The triple of MAC keys most recently installed into the MAC sublayer via
`Mac::SubMac::SetMacKey(aKeyIdMode, aKeyIndex, aPrevKey, aCurrKey, aNextKey)`. -/
structure SubMacKeys where
  keyIdMode : Nat
  keyIndex : Nat
  prevKey : List Nat
  currKey : List Nat
  nextKey : List Nat
  deriving DecidableEq, Repr

/-- The per-neighbor counters reset by `KeyManager::ResetFrameCounters` (used
for the parent and for each router). -/
structure Neighbor where
  keySequence : Nat
  linkFrameCounter154 : Nat
  linkAckFrameCounter : Nat
  mleFrameCounter : Nat
  deriving DecidableEq, Repr

/-- `SetKeySequence(0)`, `GetLinkFrameCounters().Reset()`,
`SetLinkAckFrameCounter(0)`, `SetMleFrameCounter(0)` on one neighbor. -/
def Neighbor.resetCounters (n : Neighbor) : Neighbor :=
  { n with keySequence := 0, linkFrameCounter154 := 0,
           linkAckFrameCounter := 0, mleFrameCounter := 0 }

/-- A child-table entry; `isInvalid` marks entries skipped by
`ChildTable::Iterate(Child::kInStateAnyExceptInvalid)`. -/
structure ChildEntry where
  isInvalid : Bool
  keySequence : Nat
  linkFrameCounter154 : Nat
  linkAckFrameCounter : Nat
  mleFrameCounter : Nat
  deriving DecidableEq, Repr

/-- The child-counter reset performed by `KeyManager::ResetFrameCounters`. -/
def ChildEntry.resetCounters (c : ChildEntry) : ChildEntry :=
  { c with keySequence := 0, linkFrameCounter154 := 0,
           linkAckFrameCounter := 0, mleFrameCounter := 0 }

/-- The Key Manager state (literal-key backend, 15.4 link, TREL off),
together with the change-notifier "already signalled" flags the embedded
operations consult (`Notifier::SignalIfFirst` / `Notifier::Update` are
modelled from the spec's signal-if-first semantics, the notifier itself not
being in scope). -/
structure KMState where
  networkKey : List Nat
  keySequence : Nat
  mleFrameCounter : Nat
  macFrameCounter154 : Nat
  hoursSinceKeyRotation : Nat
  keySwitchGuardTime : Nat
  keySwitchGuardEnabled : Bool
  rotationTimerRunning : Bool
  mleKey : List Nat
  subMacKeys : SubMacKeys
  securityPolicy : SecurityPolicy
  parent : Neighbor
  routers : List Neighbor
  children : List ChildEntry
  keySeqEventSignaled : Bool
  networkKeyEventSignaled : Bool
  securityPolicyEventSignaled : Bool
  deriving DecidableEq, Repr

/-- `uint32_t` increment of the key sequence (`mKeySequence + 1`). -/
def inc32 (n : Nat) : Nat := (n + 1) % 2 ^ 32

/-- `uint32_t` decrement of the key sequence (`mKeySequence - 1`). -/
def dec32 (n : Nat) : Nat := (n + (2 ^ 32 - 1)) % 2 ^ 32

/-- `KeyManager::UpdateKeyMaterial` (literal keys, 15.4 link, TREL off):
recompute the hash keys for `mKeySequence` and its two neighbors, install the
current MLE key, and install the three MAC keys into the MAC sublayer with
key index `(mKeySequence & 0x7f) + 1` under key-ID mode 1. -/
def updateKeyMaterial (hmac : List Nat → List Nat → List Nat) (s : KMState) : KMState :=
  let cur := computeKeys hmac s.networkKey s.keySequence
  let prev := computeKeys hmac s.networkKey (dec32 s.keySequence)
  let next := computeKeys hmac s.networkKey (inc32 s.keySequence)
  { s with
    mleKey := cur.mleKey
    subMacKeys :=
      ⟨kKeyIdMode1, (s.keySequence &&& 0x7f) + 1, prev.macKey, cur.macKey, next.macKey⟩ }

/-- `KeyManager::StartKeyRotationTimer`. -/
def startKeyRotationTimer (s : KMState) : KMState :=
  { s with hoursSinceKeyRotation := 0, rotationTimerRunning := true }

/-- `KeyManager::SetCurrentKeySequence(aKeySequence)`; the second component
lists the notifier events emitted by the call.
* `aKeySequence == mKeySequence`: exit, signalling the key-sequence event
  only if it has never been signalled (`SignalIfFirst`);
* single-step advance while the rotation timer runs: if the guard is
  enabled, exit silently unless `mHoursSinceKeyRotation >= mKeySwitchGuardTime`
  (restarting the rotation timer when the check passes), and enable the
  guard;
* then store the sequence, recompute key material, reset the MAC and MLE
  frame counters, and signal the key-sequence event. -/
def setCurrentKeySequence (hmac : List Nat → List Nat → List Nat) (aKeySequence : Nat)
    (s : KMState) : KMState × List Event :=
  if aKeySequence = s.keySequence then
    if s.keySeqEventSignaled then (s, [])
    else ({ s with keySeqEventSignaled := true }, [Event.threadKeySeqCounterChanged])
  else
    let afterGuard : Option KMState :=
      if aKeySequence = inc32 s.keySequence ∧ s.rotationTimerRunning then
        if s.keySwitchGuardEnabled then
          if s.hoursSinceKeyRotation ≥ s.keySwitchGuardTime then
            some { startKeyRotationTimer s with keySwitchGuardEnabled := true }
          else
            none
        else
          some { s with keySwitchGuardEnabled := true }
      else
        some s
    match afterGuard with
    | none => (s, [])
    | some s1 =>
      let s2 := updateKeyMaterial hmac { s1 with keySequence := aKeySequence }
      let s3 := { s2 with macFrameCounter154 := 0, mleFrameCounter := 0 }
      ({ s3 with keySeqEventSignaled := true }, [Event.threadKeySeqCounterChanged])

/-- `KeyManager::ResetFrameCounters`: zero the stored key sequence, link
frame counters, link-ack counter and MLE counter of the parent, every router
and every non-invalid child. -/
def resetFrameCounters (s : KMState) : KMState :=
  { s with
    parent := s.parent.resetCounters
    routers := s.routers.map Neighbor.resetCounters
    children := s.children.map fun c => if c.isInvalid then c else c.resetCounters }

/-- `KeyManager::SetNetworkKey(aKey)` (literal-key backend).  The notifier
`Update` stores the key and signals `networkKeyChanged` only when the value
differs (signal-if-first and early exit otherwise); on a change the
key-sequence event is signalled, the sequence reset to zero, key material
recomputed and the per-neighbor frame counters reset. -/
def setNetworkKey (hmac : List Nat → List Nat → List Nat) (aKey : List Nat)
    (s : KMState) : KMState × List Event :=
  if aKey = s.networkKey then
    if s.networkKeyEventSignaled then (s, [])
    else ({ s with networkKeyEventSignaled := true }, [Event.networkKeyChanged])
  else
    let s1 := { s with networkKey := aKey, networkKeyEventSignaled := true,
                       keySeqEventSignaled := true }
    let s2 := resetFrameCounters (updateKeyMaterial hmac { s1 with keySequence := 0 })
    (s2, [Event.networkKeyChanged, Event.threadKeySeqCounterChanged])

/-- `KeyManager::SetSecurityPolicy(aSecurityPolicy)`.  The boolean is the
outcome of `OT_ASSERT(aSecurityPolicy.mRotationTime >= kMinKeyRotationTime)`:
`false` means the assertion fired and the program halted before any mutation
(the returned state is the state at the halt).  On success the notifier
`Update` stores the policy when it differs, signalling the policy event. -/
def setSecurityPolicy (p : SecurityPolicy) (s : KMState) : KMState × Bool :=
  if p.mRotationTime ≥ kMinKeyRotationTime then
    if p = s.securityPolicy then
      ({ s with securityPolicyEventSignaled := true }, true)
    else
      ({ s with securityPolicy := p, securityPolicyEventSignaled := true }, true)
  else
    (s, false)

/-! ## Concrete values used by witnesses and counterexamples -/

/-- A concrete stand-in for the abstract platform HMAC-SHA256 primitive,
used only to instantiate witnesses and counterexamples. -/
def dummyHmac (key msg : List Nat) : List Nat :=
  (List.range 32).map fun i => (key.sum + 3 * msg.sum + i) % 256

/-- A concrete security policy (the Thread defaults with a 672-hour rotation
time). -/
def basePolicy : SecurityPolicy :=
  ⟨672, true, true, true, true, true, false, false, false, true, false, 0⟩

/-- A concrete Key Manager state: fresh 0xAA×16 network key, sequence 0,
default guard time, timer stopped, guard disabled, nothing signalled yet. -/
def baseState : KMState where
  networkKey := List.replicate 16 0xAA
  keySequence := 0
  mleFrameCounter := 0
  macFrameCounter154 := 0
  hoursSinceKeyRotation := 0
  keySwitchGuardTime := 624
  keySwitchGuardEnabled := false
  rotationTimerRunning := false
  mleKey := []
  subMacKeys := ⟨0, 0, [], [], []⟩
  securityPolicy := basePolicy
  parent := ⟨3, 4, 5, 6⟩
  routers := [⟨1, 2, 3, 4⟩]
  children := [⟨false, 7, 8, 9, 10⟩]
  keySeqEventSignaled := false
  networkKeyEventSignaled := false
  securityPolicyEventSignaled := false

/-- `baseState` with the rotation timer armed and the switch guard engaged. -/
def guardState : KMState :=
  { baseState with rotationTimerRunning := true, keySwitchGuardEnabled := true }

/-- A policy whose rotation time is below the defined minimum. -/
def lowPolicy : SecurityPolicy := { basePolicy with mRotationTime := 0 }

/-! ## Theorems -/

/-- Any call of `SetCurrentKeySequence` whose resulting stored sequence
differs from the old one went through the tail of the function: some state
`s1` (the original state, possibly with the guard enabled and the timer
restarted) had its sequence overwritten, its key material recomputed and its
frame counters zeroed, and the key-sequence event was signalled. -/
theorem setCurrentKeySequence_changed_form (hmac : List Nat → List Nat → List Nat)
    (n : Nat) (s : KMState)
    (h : (setCurrentKeySequence hmac n s).1.keySequence ≠ s.keySequence) :
    ∃ s1 : KMState, s1.networkKey = s.networkKey ∧
      s1.keySwitchGuardEnabled =
        (if n = inc32 s.keySequence ∧ s.rotationTimerRunning then true
         else s.keySwitchGuardEnabled) ∧
      setCurrentKeySequence hmac n s =
        ({ updateKeyMaterial hmac { s1 with keySequence := n } with
           macFrameCounter154 := 0, mleFrameCounter := 0, keySeqEventSignaled := true },
         [Event.threadKeySeqCounterChanged]) := by
  by_cases h1 : n = s.keySequence
  · exfalso
    apply h
    simp only [setCurrentKeySequence, if_pos h1]
    cases hks : s.keySeqEventSignaled <;> simp [hks]
  · by_cases h2 : n = inc32 s.keySequence ∧ s.rotationTimerRunning
    · by_cases h3 : s.keySwitchGuardEnabled
      · by_cases h4 : s.hoursSinceKeyRotation ≥ s.keySwitchGuardTime
        · refine ⟨{ startKeyRotationTimer s with keySwitchGuardEnabled := true }, rfl, ?_, ?_⟩
          · simp [h2]
          · simp only [setCurrentKeySequence, if_neg h1, if_pos h2, h3, if_pos h4]
            simp
        · exfalso
          apply h
          simp only [setCurrentKeySequence, if_neg h1, if_pos h2, h3, if_neg h4]
          simp
      · refine ⟨{ s with keySwitchGuardEnabled := true }, rfl, ?_, ?_⟩
        · simp [h2]
        · simp only [setCurrentKeySequence, if_neg h1, if_pos h2]
          simp [h3]
    · refine ⟨s, rfl, ?_, ?_⟩
      · simp [h2]
      · simp only [setCurrentKeySequence, if_neg h1, if_neg h2]

/-- Claim C1: for every key sequence `s`, `ComputeKeys(s)` is the
HMAC-SHA256 digest keyed by the current network key over
`BigEndian32(s) || "Thread"`, with the MLE key the first 16 bytes of the
32-byte digest and the MAC key the last 16 bytes.  The right-hand sides are
pure expressions in the network key and `s` alone, so the result is a
deterministic function of exactly those inputs (for any fixed platform
primitive `hmac`). -/
theorem computeKeys_is_hmac_over_sequence_and_thread
    (hmac : List Nat → List Nat → List Nat) (networkKey : List Nat) (s : Nat) :
    (computeKeys hmac networkKey s).mHash =
      hmac networkKey (bigEndian32 s ++ kThreadString) ∧
    (computeKeys hmac networkKey s).mleKey =
      (hmac networkKey (bigEndian32 s ++ kThreadString)).take 16 ∧
    (computeKeys hmac networkKey s).macKey =
      (hmac networkKey (bigEndian32 s ++ kThreadString)).drop 16 := by
  simp [computeKeys, hmacSha256Start, HmacSha256Ctx.update, HmacSha256Ctx.finish,
    HashKeys.mleKey, HashKeys.macKey]

/-- Claim C2: after a `SetCurrentKeySequence(n)` call that changes the
stored sequence, the MAC sublayer holds `ComputeKeys(n-1)/(n)/(n+1)` (32-bit
wrapping) as previous/current/next MAC keys with key index `(n & 0x7f) + 1`,
and the Key Manager's MAC and MLE frame counters read zero. -/
theorem setCurrentKeySequence_installs_three_generation_window
    (hmac : List Nat → List Nat → List Nat) (s : KMState) (n : Nat)
    (hs : s.keySequence < 2 ^ 32) (hn : n < 2 ^ 32)
    (hchange : (setCurrentKeySequence hmac n s).1.keySequence ≠ s.keySequence) :
    (setCurrentKeySequence hmac n s).1.keySequence = n ∧
    (setCurrentKeySequence hmac n s).1.subMacKeys.prevKey =
      (computeKeys hmac s.networkKey (dec32 n)).macKey ∧
    (setCurrentKeySequence hmac n s).1.subMacKeys.currKey =
      (computeKeys hmac s.networkKey n).macKey ∧
    (setCurrentKeySequence hmac n s).1.subMacKeys.nextKey =
      (computeKeys hmac s.networkKey (inc32 n)).macKey ∧
    (setCurrentKeySequence hmac n s).1.subMacKeys.keyIndex = (n &&& 0x7f) + 1 ∧
    (setCurrentKeySequence hmac n s).1.macFrameCounter154 = 0 ∧
    (setCurrentKeySequence hmac n s).1.mleFrameCounter = 0 := by
  obtain ⟨s1, hnk, hguard, heq⟩ := setCurrentKeySequence_changed_form hmac n s hchange
  rw [heq]
  simp [updateKeyMaterial, hnk]

/-- Witness for claim C2 at `hmac := dummyHmac`, `s := baseState`, `n := 5`. -/
theorem three_generation_window_witness :
    (baseState.keySequence < 2 ^ 32 ∧ (5 : Nat) < 2 ^ 32 ∧
     (setCurrentKeySequence dummyHmac 5 baseState).1.keySequence ≠ baseState.keySequence) ∧
    ((setCurrentKeySequence dummyHmac 5 baseState).1.keySequence = 5 ∧
     (setCurrentKeySequence dummyHmac 5 baseState).1.subMacKeys.prevKey =
       (computeKeys dummyHmac baseState.networkKey (dec32 5)).macKey ∧
     (setCurrentKeySequence dummyHmac 5 baseState).1.subMacKeys.currKey =
       (computeKeys dummyHmac baseState.networkKey 5).macKey ∧
     (setCurrentKeySequence dummyHmac 5 baseState).1.subMacKeys.nextKey =
       (computeKeys dummyHmac baseState.networkKey (inc32 5)).macKey ∧
     (setCurrentKeySequence dummyHmac 5 baseState).1.subMacKeys.keyIndex = (5 &&& 0x7f) + 1 ∧
     (setCurrentKeySequence dummyHmac 5 baseState).1.macFrameCounter154 = 0 ∧
     (setCurrentKeySequence dummyHmac 5 baseState).1.mleFrameCounter = 0) :=
  ⟨⟨by decide, by decide, by decide⟩,
   setCurrentKeySequence_installs_three_generation_window dummyHmac baseState 5
     (by decide) (by decide) (by decide)⟩

/-- Claim C3: with the rotation timer running, the guard enabled and
`hoursSinceKeyRotation < keySwitchGuardTime`, a single-step
`SetCurrentKeySequence(current+1)` is a silent no-op: the state is returned
unchanged and no notification is emitted. -/
theorem setCurrentKeySequence_guard_blocks_single_step
    (hmac : List Nat → List Nat → List Nat) (s : KMState)
    (h1 : s.rotationTimerRunning = true) (h2 : s.keySwitchGuardEnabled = true)
    (h3 : s.hoursSinceKeyRotation < s.keySwitchGuardTime) :
    setCurrentKeySequence hmac (inc32 s.keySequence) s = (s, []) := by
  have hne : inc32 s.keySequence ≠ s.keySequence := by unfold inc32; omega
  have hlt : ¬ s.hoursSinceKeyRotation ≥ s.keySwitchGuardTime := by omega
  simp only [setCurrentKeySequence, if_neg hne]
  simp [h1, h2, hlt]

/-- Witness for claim C3 at `hmac := dummyHmac`, `s := guardState`. -/
theorem guard_blocks_single_step_witness :
    (guardState.rotationTimerRunning = true ∧ guardState.keySwitchGuardEnabled = true ∧
     guardState.hoursSinceKeyRotation < guardState.keySwitchGuardTime) ∧
    setCurrentKeySequence dummyHmac (inc32 guardState.keySequence) guardState =
      (guardState, []) :=
  ⟨⟨rfl, rfl, by decide⟩,
   setCurrentKeySequence_guard_blocks_single_step dummyHmac guardState rfl rfl (by decide)⟩

/-- Claim C4: for `n` that is neither the current sequence nor (when the
rotation timer runs) `current+1` — i.e. any jump, any decrease, or a
single-step advance with the timer stopped — `SetCurrentKeySequence(n)`
updates the sequence unconditionally, with no guard-time hypothesis:
key material is recomputed and the MAC/MLE frame counters are zeroed. -/
theorem setCurrentKeySequence_bypasses_guard
    (hmac : List Nat → List Nat → List Nat) (s : KMState) (n : Nat)
    (hs : s.keySequence < 2 ^ 32) (hn : n < 2 ^ 32)
    (hne : n ≠ s.keySequence)
    (hcase : n ≠ inc32 s.keySequence ∨ s.rotationTimerRunning = false) :
    (setCurrentKeySequence hmac n s).1.keySequence = n ∧
    (setCurrentKeySequence hmac n s).1.mleKey =
      (computeKeys hmac s.networkKey n).mleKey ∧
    (setCurrentKeySequence hmac n s).1.subMacKeys =
      ⟨kKeyIdMode1, (n &&& 0x7f) + 1,
       (computeKeys hmac s.networkKey (dec32 n)).macKey,
       (computeKeys hmac s.networkKey n).macKey,
       (computeKeys hmac s.networkKey (inc32 n)).macKey⟩ ∧
    (setCurrentKeySequence hmac n s).1.macFrameCounter154 = 0 ∧
    (setCurrentKeySequence hmac n s).1.mleFrameCounter = 0 := by
  have hnot : ¬ (n = inc32 s.keySequence ∧ s.rotationTimerRunning) := by
    rcases hcase with h | h
    · exact fun hc => h hc.1
    · exact fun hc => by rw [h] at hc; exact Bool.false_ne_true hc.2
  simp only [setCurrentKeySequence, if_neg hne, if_neg hnot]
  simp [updateKeyMaterial]

/-- Witness for claim C4 at `hmac := dummyHmac`, `s := guardState`, `n := 5`
(a jump of five, with the guard engaged and the timer running). -/
theorem bypasses_guard_witness :
    (guardState.keySequence < 2 ^ 32 ∧ (5 : Nat) < 2 ^ 32 ∧
     (5 : Nat) ≠ guardState.keySequence ∧ (5 : Nat) ≠ inc32 guardState.keySequence) ∧
    ((setCurrentKeySequence dummyHmac 5 guardState).1.keySequence = 5 ∧
     (setCurrentKeySequence dummyHmac 5 guardState).1.mleKey =
       (computeKeys dummyHmac guardState.networkKey 5).mleKey ∧
     (setCurrentKeySequence dummyHmac 5 guardState).1.subMacKeys =
       ⟨kKeyIdMode1, (5 &&& 0x7f) + 1,
        (computeKeys dummyHmac guardState.networkKey (dec32 5)).macKey,
        (computeKeys dummyHmac guardState.networkKey 5).macKey,
        (computeKeys dummyHmac guardState.networkKey (inc32 5)).macKey⟩ ∧
     (setCurrentKeySequence dummyHmac 5 guardState).1.macFrameCounter154 = 0 ∧
     (setCurrentKeySequence dummyHmac 5 guardState).1.mleFrameCounter = 0) :=
  ⟨⟨by decide, by decide, by decide, by decide⟩,
   setCurrentKeySequence_bypasses_guard dummyHmac guardState 5
     (by decide) (by decide) (by decide) (Or.inl (by decide))⟩

/-- Counterexample to claim C5: from `baseState` (guard disabled, timer
stopped, sequence 0), `SetCurrentKeySequence(5)` changes the stored sequence
yet leaves the key-switch guard flag disabled — the flag is only set inside
the single-step-with-timer-running branch of the source. -/
theorem setCurrentKeySequence_jump_leaves_guard_disabled :
    (setCurrentKeySequence dummyHmac 5 baseState).1.keySequence ≠ baseState.keySequence ∧
    (setCurrentKeySequence dummyHmac 5 baseState).1.keySwitchGuardEnabled = false := by
  decide

/-- Claim C5 as amended: after a `SetCurrentKeySequence` call that changes
the stored sequence, the key-switch guard flag is enabled if the call was a
single-step advance made while the rotation timer was running, and is left
at its previous value by every other sequence-changing call. -/
theorem setCurrentKeySequence_guard_flag_behavior
    (hmac : List Nat → List Nat → List Nat) (s : KMState) (n : Nat)
    (hchange : (setCurrentKeySequence hmac n s).1.keySequence ≠ s.keySequence) :
    (setCurrentKeySequence hmac n s).1.keySwitchGuardEnabled =
      (if n = inc32 s.keySequence ∧ s.rotationTimerRunning then true
       else s.keySwitchGuardEnabled) := by
  obtain ⟨s1, hnk, hguard, heq⟩ := setCurrentKeySequence_changed_form hmac n s hchange
  rw [heq] at *
  simpa [updateKeyMaterial] using hguard

/-- Witness for the amended claim C5 at `hmac := dummyHmac`,
`s := baseState`, `n := 5`. -/
theorem guard_flag_behavior_witness :
    ((setCurrentKeySequence dummyHmac 5 baseState).1.keySequence ≠ baseState.keySequence) ∧
    (setCurrentKeySequence dummyHmac 5 baseState).1.keySwitchGuardEnabled =
      (if (5 : Nat) = inc32 baseState.keySequence ∧ baseState.rotationTimerRunning then true
       else baseState.keySwitchGuardEnabled) :=
  ⟨by decide,
   setCurrentKeySequence_guard_flag_behavior dummyHmac baseState 5 (by decide)⟩

/-- Counterexample to claim C6: `SetNetworkKey` with a fresh key succeeds
(the new key is stored) but the Key Manager's own MLE and MAC frame
counters, here 7 and 9, are NOT reset — `ResetFrameCounters` only touches
the parent/router/child stored counters. -/
theorem setNetworkKey_own_counters_not_reset :
    (setNetworkKey dummyHmac (List.replicate 16 1)
        { baseState with mleFrameCounter := 7, macFrameCounter154 := 9 }).1.networkKey =
      List.replicate 16 1 ∧
    (setNetworkKey dummyHmac (List.replicate 16 1)
        { baseState with mleFrameCounter := 7, macFrameCounter154 := 9 }).1.mleFrameCounter = 7 ∧
    (setNetworkKey dummyHmac (List.replicate 16 1)
        { baseState with mleFrameCounter := 7, macFrameCounter154 := 9 }).1.macFrameCounter154 = 9 := by
  decide

/-- Claim C6 as amended: `SetNetworkKey` with a key different from the
stored one stores the new root key, resets the sequence to 0, recomputes the
derived key material, and resets the per-parent/per-router/per-child stored
key-sequence and frame counters — while leaving the Key Manager's own MAC
and MLE frame counters unchanged. -/
theorem setNetworkKey_resets_sequence_and_neighbor_counters
    (hmac : List Nat → List Nat → List Nat) (k : List Nat) (s : KMState)
    (h : k ≠ s.networkKey) :
    (setNetworkKey hmac k s).1.networkKey = k ∧
    (setNetworkKey hmac k s).1.keySequence = 0 ∧
    (setNetworkKey hmac k s).1.mleKey = (computeKeys hmac k 0).mleKey ∧
    (setNetworkKey hmac k s).1.subMacKeys =
      ⟨kKeyIdMode1, 1,
       (computeKeys hmac k (dec32 0)).macKey,
       (computeKeys hmac k 0).macKey,
       (computeKeys hmac k (inc32 0)).macKey⟩ ∧
    (setNetworkKey hmac k s).1.parent = s.parent.resetCounters ∧
    (setNetworkKey hmac k s).1.routers = s.routers.map Neighbor.resetCounters ∧
    (setNetworkKey hmac k s).1.children =
      s.children.map (fun c => if c.isInvalid then c else c.resetCounters) ∧
    (setNetworkKey hmac k s).1.mleFrameCounter = s.mleFrameCounter ∧
    (setNetworkKey hmac k s).1.macFrameCounter154 = s.macFrameCounter154 := by
  simp only [setNetworkKey, if_neg h]
  simp [resetFrameCounters, updateKeyMaterial]

/-- Witness for the amended claim C6 at `hmac := dummyHmac`,
`k := 16 bytes of 1`, `s := baseState`. -/
theorem setNetworkKey_resets_witness :
    (List.replicate 16 1 ≠ baseState.networkKey) ∧
    ((setNetworkKey dummyHmac (List.replicate 16 1) baseState).1.networkKey =
       List.replicate 16 1 ∧
     (setNetworkKey dummyHmac (List.replicate 16 1) baseState).1.keySequence = 0 ∧
     (setNetworkKey dummyHmac (List.replicate 16 1) baseState).1.mleKey =
       (computeKeys dummyHmac (List.replicate 16 1) 0).mleKey ∧
     (setNetworkKey dummyHmac (List.replicate 16 1) baseState).1.subMacKeys =
       ⟨kKeyIdMode1, 1,
        (computeKeys dummyHmac (List.replicate 16 1) (dec32 0)).macKey,
        (computeKeys dummyHmac (List.replicate 16 1) 0).macKey,
        (computeKeys dummyHmac (List.replicate 16 1) (inc32 0)).macKey⟩ ∧
     (setNetworkKey dummyHmac (List.replicate 16 1) baseState).1.parent =
       baseState.parent.resetCounters ∧
     (setNetworkKey dummyHmac (List.replicate 16 1) baseState).1.routers =
       baseState.routers.map Neighbor.resetCounters ∧
     (setNetworkKey dummyHmac (List.replicate 16 1) baseState).1.children =
       baseState.children.map (fun c => if c.isInvalid then c else c.resetCounters) ∧
     (setNetworkKey dummyHmac (List.replicate 16 1) baseState).1.mleFrameCounter =
       baseState.mleFrameCounter ∧
     (setNetworkKey dummyHmac (List.replicate 16 1) baseState).1.macFrameCounter154 =
       baseState.macFrameCounter154) :=
  ⟨by decide,
   setNetworkKey_resets_sequence_and_neighbor_counters dummyHmac (List.replicate 16 1)
     baseState (by decide)⟩

/-- Claim C7: for every security policy (the version-threshold field being
the 4-bit value the wire format carries) and for both flag lengths 1 and 2,
encoding with `GetFlags`, decoding with `SetFlags` and re-encoding with
`GetFlags` reproduces the first encoding byte-for-byte. -/
theorem securityPolicy_flags_roundtrip (p : SecurityPolicy)
    (h : p.mVersionThresholdForRouting < 16) :
    ((p.setFlags (p.getFlags 1)).getFlags 1) = p.getFlags 1 ∧
    ((p.setFlags (p.getFlags 2)).getFlags 2) = p.getFlags 2 := by
  obtain ⟨rot, a1, a2, a3, a4, a5, a6, a7, a8, t1, t2, v⟩ := p
  simp only at h
  simp only [SecurityPolicy.getFlags, SecurityPolicy.setFlags, SecurityPolicy.setToDefaultFlags,
    SecurityPolicy.byte0, SecurityPolicy.byte1]
  revert a1 a2 a3 a4 a5 a6 a7 a8 t1 t2
  interval_cases v <;> decide

/-- Witness for claim C7 at `p := basePolicy`. -/
theorem flags_roundtrip_witness :
    (basePolicy.mVersionThresholdForRouting < 16) ∧
    (((basePolicy.setFlags (basePolicy.getFlags 1)).getFlags 1) = basePolicy.getFlags 1 ∧
     ((basePolicy.setFlags (basePolicy.getFlags 2)).getFlags 2) = basePolicy.getFlags 2) :=
  ⟨by decide, securityPolicy_flags_roundtrip basePolicy (by decide)⟩

/-- Claim C8: `SetSecurityPolicy` with a rotation time below the defined
minimum is rejected by `OT_ASSERT` (the assertion outcome is `false`) and
the stored security policy is left unchanged. -/
theorem setSecurityPolicy_rejects_short_rotation (p : SecurityPolicy) (s : KMState)
    (h : p.mRotationTime < kMinKeyRotationTime) :
    (setSecurityPolicy p s).2 = false ∧
    (setSecurityPolicy p s).1.securityPolicy = s.securityPolicy := by
  have : ¬ p.mRotationTime ≥ kMinKeyRotationTime := by omega
  simp [setSecurityPolicy, this]

/-- Witness for claim C8 at `p := lowPolicy`, `s := baseState`. -/
theorem rejects_short_rotation_witness :
    (lowPolicy.mRotationTime < kMinKeyRotationTime) ∧
    ((setSecurityPolicy lowPolicy baseState).2 = false ∧
     (setSecurityPolicy lowPolicy baseState).1.securityPolicy = baseState.securityPolicy) :=
  ⟨by decide, setSecurityPolicy_rejects_short_rotation lowPolicy baseState (by decide)⟩

/-- Claim C9: a redundant `SetCurrentKeySequence(current)` leaves the
sequence, the installed key material and the frame counters untouched, and
emits the key-sequence-changed notification exactly when it has never been
signalled before (signal-if-first); an immediately repeated redundant call
emits nothing. -/
theorem setCurrentKeySequence_redundant_signal_if_first
    (hmac : List Nat → List Nat → List Nat) (s : KMState) :
    (setCurrentKeySequence hmac s.keySequence s).1.keySequence = s.keySequence ∧
    (setCurrentKeySequence hmac s.keySequence s).1.mleKey = s.mleKey ∧
    (setCurrentKeySequence hmac s.keySequence s).1.subMacKeys = s.subMacKeys ∧
    (setCurrentKeySequence hmac s.keySequence s).1.macFrameCounter154 = s.macFrameCounter154 ∧
    (setCurrentKeySequence hmac s.keySequence s).1.mleFrameCounter = s.mleFrameCounter ∧
    (setCurrentKeySequence hmac s.keySequence s).2 =
      (if s.keySeqEventSignaled then [] else [Event.threadKeySeqCounterChanged]) ∧
    (setCurrentKeySequence hmac s.keySequence
        (setCurrentKeySequence hmac s.keySequence s).1).2 = [] := by
  cases hks : s.keySeqEventSignaled <;>
    simp [setCurrentKeySequence, hks]

/-- Claim C10: decoding a one-byte flags buffer resets the byte-1-controlled
fields to their defaults whatever they were before: ToBLE link enabled,
non-CCM routers disabled, version threshold zero. -/
theorem setFlags_single_byte_resets_extended_fields (p : SecurityPolicy) (b0 : Nat) :
    (p.setFlags [b0]).mTobleLinkEnabled = true ∧
    (p.setFlags [b0]).mNonCcmRoutersEnabled = false ∧
    (p.setFlags [b0]).mVersionThresholdForRouting = 0 :=
  ⟨rfl, rfl, rfl⟩

end OT
